import Mathlib

/-!
Shallow embedding of the remember-me token subsystem of the repository,
taken from src/models/RememberToken.js.

Modelling choices:

* Timestamps are civil instants `DateTime` = (absolute calendar-day index,
  milliseconds within the day).  JavaScript `Date` comparison (`<` on two
  `Date` objects) is lexicographic on (day, ms); `setDate(getDate() + n)`
  advances the calendar date by `n` days while keeping the wall-clock time
  of day, which is exactly `addDays` below.
* The `remember_tokens` table is a `Store` = `List TokenRow`; a SQL
  `DELETE ... WHERE c` is `List.filter (not c)`, an `UPDATE ... WHERE c`
  is `List.map` of the point update, `SELECT * WHERE token = ?` with
  `rows[0]` is `List.find?`.
* `crypto.randomBytes(32).toString('hex')` is modelled by passing the
  freshly generated token string as an explicit argument `tok`.
* The fallible variants (`createTokenE`, `validateTokenE`) expose the
  driver-level failure points of the JS code as explicit booleans; the
  mariadb transaction contract (rollback restores the pre-transaction
  state, commit publishes all buffered writes) is made explicit by
  returning the original store on any failed step.
-/

/-- A civil instant: absolute day index plus milliseconds within the day. -/
structure DateTime where
  day : Int
  ms : Nat
deriving DecidableEq, Repr

/-- JavaScript `Date` comparison `a < b` (epoch order, lexicographic on
civil (day, time-of-day)). -/
def DateTime.ltb (a b : DateTime) : Bool :=
  a.day < b.day || (a.day == b.day && a.ms < b.ms)

/-- `expiresAt.setDate(expiresAt.getDate() + n)`: calendar-day add, keeping
the time of day. -/
def DateTime.addDays (d : DateTime) (n : Int) : DateTime :=
  { d with day := d.day + n }

/-- The canonical identity produced by the OAuth layer, as consumed by
`createToken(user)`: the JS code reads `user.id`, `user.provider`,
`user.email`, `user.name`, `user.photo`. -/
structure User where
  id : String
  provider : String
  email : String
  name : String
  photo : Option String
deriving DecidableEq, Repr

/-- One row of the `remember_tokens` table (columns from `initializeTable`'s
CREATE TABLE, minus the auto-increment surrogate id). -/
structure TokenRow where
  token : String
  userId : String
  provider : String
  userEmail : String
  userName : String
  userPhoto : Option String
  expiresAt : DateTime
  createdAt : DateTime
  lastUsed : DateTime
deriving DecidableEq, Repr

/-- The table contents. -/
abbrev Store := List TokenRow

/-- JavaScript `user.photo || null`: `null`/`undefined` and the (falsy)
empty string all store as NULL. -/
def jsOrNull (p : Option String) : Option String :=
  match p with
  | none => none
  | some s => if s = "" then none else some s

/-- The row inserted by `createToken`: denormalized identity snapshot,
`expiresAt = now + rememberDays` (calendar days), `createdAt = lastUsed
= NOW()`. -/
def newTokenRow (user : User) (rememberDays : Int) (tok : String)
    (now : DateTime) : TokenRow :=
  { token := tok
    userId := user.id
    provider := user.provider
    userEmail := user.email
    userName := user.name
    userPhoto := jsOrNull user.photo
    expiresAt := now.addDays rememberDays
    createdAt := now
    lastUsed := now }

/-- The two DML steps of `createToken`'s transaction applied to the store:
`DELETE FROM remember_tokens WHERE userId = ? AND provider = ?` then
`INSERT` of the new row. -/
def applyCreate (user : User) (rememberDays : Int) (tok : String)
    (now : DateTime) (store : Store) : Store :=
  (store.filter fun r => !(r.userId == user.id && r.provider == user.provider))
    ++ [newTokenRow user rememberDays tok now]

/-- `createToken(user, rememberDays = 30)` on the happy path: runs the
delete-then-insert transaction and returns the token string. -/
def createToken (user : User) (rememberDays : Int) (tok : String)
    (now : DateTime) (store : Store) : Store × String :=
  (applyCreate user rememberDays tok now store, tok)

/-- `createToken` with the storage-failure points exposed: `deleteFails`,
`insertFails` and `commitFails` say whether the corresponding
`conn.query`/`conn.commit` call throws.  On any failure the JS `catch`
block rolls the transaction back (the durable store stays as it was) and
rethrows; otherwise the commit publishes both steps. -/
def createTokenE (deleteFails insertFails commitFails : Bool) (user : User)
    (rememberDays : Int) (tok : String) (now : DateTime) (store : Store) :
    Store × Except Unit String :=
  if deleteFails then
    (store, Except.error ())
  else if insertFails then
    (store, Except.error ())
  else if commitFails then
    (store, Except.error ())
  else
    (applyCreate user rememberDays tok now store, Except.ok tok)

/-- The identity snapshot returned by a successful `validateToken`. -/
structure Snapshot where
  id : String
  provider : String
  name : String
  email : String
  photo : Option String
deriving DecidableEq, Repr

/-- The object literal `validateToken` returns, built from the stored row. -/
def rowSnapshot (r : TokenRow) : Snapshot :=
  { id := r.userId
    provider := r.provider
    name := r.userName
    email := r.userEmail
    photo := r.userPhoto }

/-- `validateToken(token)`: look the row up by exact token match; absent
rows and expired rows (which get deleted) give `none`; otherwise touch
`lastUsed = NOW()` and return the denormalized snapshot.  Returns the
store after the call together with the result. -/
def validateToken (tok : String) (now : DateTime) (store : Store) :
    Store × Option Snapshot :=
  match store.find? (fun r => r.token == tok) with
  | none => (store, none)
  | some r =>
    if r.expiresAt.ltb now then
      (store.filter fun r2 => !(r2.token == tok), none)
    else
      (store.map fun r2 =>
        if r2.token == tok then { r2 with lastUsed := now } else r2,
       some (rowSnapshot r))

/-- `validateToken` with the failure point of the `UPDATE ... SET lastUsed`
query exposed: when `updateFails` is true that `conn.query` throws, the
`catch (error) { throw error }` block rethrows, and the caller sees the
error instead of a result. -/
def validateTokenE (updateFails : Bool) (tok : String) (now : DateTime)
    (store : Store) : Except Unit (Store × Option Snapshot) :=
  match store.find? (fun r => r.token == tok) with
  | none => Except.ok (store, none)
  | some r =>
    if r.expiresAt.ltb now then
      Except.ok (store.filter fun r2 => !(r2.token == tok), none)
    else
      if updateFails then
        Except.error ()
      else
        Except.ok
          (store.map fun r2 =>
            if r2.token == tok then { r2 with lastUsed := now } else r2,
           some (rowSnapshot r))

/-- `deleteToken(token)`: unconditional `DELETE ... WHERE token = ?`;
returns `result.affectedRows > 0`. -/
def deleteToken (tok : String) (store : Store) : Store × Bool :=
  ((store.filter fun r => !(r.token == tok)),
   decide (0 < (store.filter fun r => r.token == tok).length))

/-- The row effect of `initializeTable`: the `CREATE TABLE IF NOT EXISTS`
bootstrap touches no rows, and the startup sweep runs
`DELETE FROM remember_tokens WHERE expiresAt < NOW()`. -/
def initializeTable (now : DateTime) (store : Store) : Store :=
  store.filter fun r => !(r.expiresAt.ltb now)

/-- Erase the `lastUsed` field, for frame statements: two rows agree on
everything except possibly `lastUsed` iff their images agree. -/
def stripLastUsed (r : TokenRow) : TokenRow :=
  { r with lastUsed := { day := 0, ms := 0 } }

/-! ### Helper lemmas -/

/-- `a < a` is false on civil instants, as it is on JS `Date`s. -/
theorem DateTime.ltb_irrefl (a : DateTime) : a.ltb a = false := by
  simp [DateTime.ltb]

/-- Advancing by a nonnegative number of days never lands strictly before
the starting instant. -/
theorem DateTime.ltb_addDays_self (a : DateTime) (n : Int) (h : 0 ≤ n) :
    (a.addDays n).ltb a = false := by
  simp only [DateTime.ltb, DateTime.addDays, Bool.or_eq_false_iff,
    Bool.and_eq_false_iff, decide_eq_false_iff_not, not_lt]
  constructor
  · omega
  · by_cases hn : n = 0
    · subst hn
      simp
    · left
      simp only [beq_eq_false_iff_ne, ne_eq]
      omega

/-- `find?` skips a prefix on which the predicate is everywhere false. -/
theorem find?_append_of_forall_false {α : Type} {p : α → Bool}
    {l₁ : List α} (l₂ : List α) (h : ∀ a ∈ l₁, p a = false) :
    (l₁ ++ l₂).find? p = l₂.find? p := by
  induction l₁ with
  | nil => simp
  | cons a l ih =>
    have ha : p a = false := h a (List.mem_cons_self a l)
    simp only [List.cons_append, List.find?_cons, ha]
    exact ih fun x hx => h x (List.mem_cons_of_mem a hx)

/-! ### Claims -/

/-- C8: `createToken` sets the new row's `expiresAt` to the current time
advanced by `rememberDays` calendar days (day-granularity add: the day
index moves by `rememberDays` while the time of day is unchanged), and
sets both `createdAt` and `lastUsed` to the issuance time.  The new row is
the one appended by the insert step. -/
theorem createToken_expiry_fields (user : User) (rememberDays : Int)
    (tok : String) (now : DateTime) (store : Store) :
    ∃ pre : Store,
      (createToken user rememberDays tok now store).1 =
        pre ++ [newTokenRow user rememberDays tok now] ∧
      (newTokenRow user rememberDays tok now).expiresAt.day =
        now.day + rememberDays ∧
      (newTokenRow user rememberDays tok now).expiresAt.ms = now.ms ∧
      (newTokenRow user rememberDays tok now).createdAt = now ∧
      (newTokenRow user rememberDays tok now).lastUsed = now := by
  refine ⟨store.filter fun r =>
    !(r.userId == user.id && r.provider == user.provider), rfl, rfl, rfl,
    rfl, rfl⟩

/-- C9: the startup sweep in `initializeTable` deletes exactly the rows
with `expiresAt` earlier than the current time: a row survives the sweep
iff it was in the store and is not expired, every survivor is unchanged,
and the survivors keep their original order (sublist). -/
theorem initializeTable_sweeps_expired (now : DateTime) (store : Store) :
    (∀ r : TokenRow,
      r ∈ initializeTable now store ↔
        r ∈ store ∧ r.expiresAt.ltb now = false) ∧
    List.Sublist (initializeTable now store) store := by
  constructor
  · intro r
    simp [initializeTable, List.mem_filter]
  · exact List.filter_sublist store

/-- C10: the expiry boundary is strict.  A stored token whose `expiresAt`
equals the current clock time exactly is still live: `validateToken`
returns the snapshot, deletes nothing (the store keeps its length), and
the row is still present with `lastUsed` touched to `now` and every other
field unchanged. -/
theorem validateToken_boundary_live (tok : String) (now : DateTime)
    (store : Store) (r : TokenRow)
    (hfind : store.find? (fun r2 => r2.token == tok) = some r)
    (heq : r.expiresAt = now) :
    (validateToken tok now store).2 = some (rowSnapshot r) ∧
    (validateToken tok now store).1.length = store.length ∧
    ∃ r2 ∈ (validateToken tok now store).1,
      r2.token = r.token ∧ r2.lastUsed = now ∧
      stripLastUsed r2 = stripLastUsed r := by
  have hltb : r.expiresAt.ltb now = false := by
    rw [heq]; exact DateTime.ltb_irrefl now
  have hmem : r ∈ store := List.mem_of_find?_eq_some hfind
  have hpred : (r.token == tok) = true :=
    List.find?_some (p := fun r2 : TokenRow => r2.token == tok) hfind
  simp only [validateToken, hfind, hltb, Bool.false_eq_true, if_false]
  refine ⟨trivial, List.length_map store _, ?_⟩
  refine ⟨{ r with lastUsed := now }, ?_, rfl, rfl, rfl⟩
  exact List.mem_map.mpr ⟨r, hmem, by simp [hpred]⟩

/-- A concrete row used by witnesses: expires at instant (5, 10). -/
def wRowBoundary : TokenRow :=
  { token := "t", userId := "u1", provider := "google", userEmail := "e@x",
    userName := "N", userPhoto := none, expiresAt := ⟨5, 10⟩,
    createdAt := ⟨0, 0⟩, lastUsed := ⟨0, 0⟩ }

/-- C10 witness: a concrete one-row store whose row expires exactly at the
current instant still validates, keeps its one row, and gets touched. -/
theorem validateToken_boundary_live_witness :
    (validateToken "t" ⟨5, 10⟩ [wRowBoundary]).2 =
      some (rowSnapshot wRowBoundary) ∧
    (validateToken "t" ⟨5, 10⟩ [wRowBoundary]).1.length =
      [wRowBoundary].length ∧
    ∃ r2 ∈ (validateToken "t" ⟨5, 10⟩ [wRowBoundary]).1,
      r2.token = wRowBoundary.token ∧ r2.lastUsed = ⟨5, 10⟩ ∧
      stripLastUsed r2 = stripLastUsed wRowBoundary :=
  validateToken_boundary_live "t" ⟨5, 10⟩ [wRowBoundary] wRowBoundary rfl rfl

/-- C7: `createToken`'s delete-existing-rows step and insert-new-row step
run as one atomic transaction.  If any step (delete, insert, or commit)
fails, the rollback leaves no partial state — the durable store is exactly
the original one — and the error propagates to the caller (a single
attempt, no retry).  If no step fails, both the delete and the insert take
effect and the token is returned. -/
theorem createToken_transaction_atomic (deleteFails insertFails commitFails : Bool)
    (user : User) (rememberDays : Int) (tok : String) (now : DateTime)
    (store : Store) :
    ((deleteFails || insertFails || commitFails) = true →
      createTokenE deleteFails insertFails commitFails user rememberDays tok
          now store =
        (store, Except.error ())) ∧
    ((deleteFails || insertFails || commitFails) = false →
      createTokenE deleteFails insertFails commitFails user rememberDays tok
          now store =
        (applyCreate user rememberDays tok now store, Except.ok tok)) := by
  cases deleteFails <;> cases insertFails <;> cases commitFails <;>
    simp [createTokenE]

/-- C7 witness: with a one-row store, a failing insert step leaves the
store untouched and surfaces the error; with no failing step both steps
commit. -/
theorem createToken_transaction_atomic_witness :
    ((false || true || false) = true →
      createTokenE false true false
          ⟨"u2", "google", "e2@x", "M", none⟩ 30 "t2" ⟨3, 0⟩ [wRowBoundary] =
        ([wRowBoundary], Except.error ())) ∧
    ((false || true || false) = false →
      createTokenE false true false
          ⟨"u2", "google", "e2@x", "M", none⟩ 30 "t2" ⟨3, 0⟩ [wRowBoundary] =
        (applyCreate ⟨"u2", "google", "e2@x", "M", none⟩ 30 "t2" ⟨3, 0⟩
          [wRowBoundary], Except.ok "t2")) :=
  createToken_transaction_atomic false true false
    ⟨"u2", "google", "e2@x", "M", none⟩ 30 "t2" ⟨3, 0⟩ [wRowBoundary]

/-- C6 counterexample: the claim says a failure of the `lastUsed` update
step must not fail the validation outcome, but in the code that
`conn.query` throw is rethrown by the `catch` block.  On a concrete
one-row store with a live token, validation with a failing update step
returns an error — not the snapshot that the same call returns when the
update succeeds. -/
theorem validateToken_touch_failure_counterexample :
    validateTokenE true "t" ⟨0, 0⟩ [wRowBoundary] = Except.error () ∧
    (validateTokenE true "t" ⟨0, 0⟩ [wRowBoundary]).isOk = false ∧
    validateTokenE false "t" ⟨0, 0⟩ [wRowBoundary] =
      Except.ok ([{ wRowBoundary with lastUsed := ⟨0, 0⟩ }],
        some (rowSnapshot wRowBoundary)) := by
  refine ⟨rfl, rfl, ?_⟩
  rfl

/-- C6 (amended): the touch-on-validate update is not best-effort in the
code.  For every token that is found and not expired, a failure of the
`lastUsed` update step makes `validateToken` propagate that failure to the
caller instead of returning the identity snapshot. -/
theorem validateToken_touch_failure_propagates (tok : String)
    (now : DateTime) (store : Store) (r : TokenRow)
    (hfind : store.find? (fun r2 => r2.token == tok) = some r)
    (hlive : r.expiresAt.ltb now = false) :
    validateTokenE true tok now store = Except.error () := by
  simp [validateTokenE, hfind, hlive]

/-- C6 witness: the amended claim applied to a concrete live one-row
store. -/
theorem validateToken_touch_failure_propagates_witness :
    validateTokenE true "t" ⟨1, 0⟩ [wRowBoundary] = Except.error () :=
  validateToken_touch_failure_propagates "t" ⟨1, 0⟩ [wRowBoundary]
    wRowBoundary rfl rfl

/-- C3: when the row found for a token has `expiresAt` in the past at call
time, `validateToken` returns `NotFound` (`none`) and the row is absent
from storage immediately after the call: no row with that token value
survives. -/
theorem validateToken_expired_deletes (tok : String) (now : DateTime)
    (store : Store) (r : TokenRow)
    (hfind : store.find? (fun r2 => r2.token == tok) = some r)
    (hexp : r.expiresAt.ltb now = true) :
    (validateToken tok now store).2 = none ∧
    ∀ r2 ∈ (validateToken tok now store).1, (r2.token == tok) = false := by
  simp only [validateToken, hfind, hexp, if_true]
  refine ⟨trivial, ?_⟩
  intro r2 hr2
  have h2 := (List.mem_filter.mp hr2).2
  simpa using h2

/-- C3 witness: validating the boundary row three days past its expiry
returns `NotFound` and leaves no row with that token. -/
theorem validateToken_expired_deletes_witness :
    (validateToken "t" ⟨8, 0⟩ [wRowBoundary]).2 = none ∧
    ∀ r2 ∈ (validateToken "t" ⟨8, 0⟩ [wRowBoundary]).1,
      (r2.token == "t") = false :=
  validateToken_expired_deletes "t" ⟨8, 0⟩ [wRowBoundary] wRowBoundary rfl rfl

/-- C4: `deleteToken` returns `false` and leaves the store untouched when
no row with the token exists, and returns `true` when a row existed; it
never errors on a not-found token (it is total on every store), and after
a `true` return a subsequent `validateToken` on that token returns
`NotFound`. -/
theorem deleteToken_found_and_removed (tok : String) (now : DateTime)
    (store : Store) :
    (store.any (fun r => r.token == tok) = false →
      (deleteToken tok store).2 = false ∧ (deleteToken tok store).1 = store) ∧
    (store.any (fun r => r.token == tok) = true →
      (deleteToken tok store).2 = true ∧
      (validateToken tok now (deleteToken tok store).1).2 = none) := by
  constructor
  · intro hnone
    have hall : ∀ r ∈ store, (r.token == tok) = false := by
      intro r hr
      simpa using List.any_eq_false.mp hnone r hr
    constructor
    · have hfil : (store.filter fun r => r.token == tok) = [] :=
        List.filter_eq_nil_iff.mpr fun a ha => by simp [hall a ha]
      simp [deleteToken, hfil]
    · simp only [deleteToken]
      exact List.filter_eq_self.mpr fun a ha => by simp [hall a ha]
  · intro hsome
    obtain ⟨x, hx, hpx⟩ := List.any_eq_true.mp hsome
    constructor
    · have hxf : x ∈ store.filter fun r => r.token == tok :=
        List.mem_filter.mpr ⟨hx, hpx⟩
      have hlen : 0 < (store.filter fun r => r.token == tok).length :=
        List.length_pos.mpr (List.ne_nil_of_mem hxf)
      simp [deleteToken, hlen]
    · have hfind :
          ((deleteToken tok store).1.find? fun r2 => r2.token == tok) = none := by
        apply List.find?_eq_none.mpr
        intro a ha
        have h2 := (List.mem_filter.mp ha).2
        simpa using h2
      simp [validateToken, hfind]

/-- C4 witness: deleting an absent token from the one-row store returns
`false` and changes nothing; deleting the present token returns `true`
and the token no longer validates. -/
theorem deleteToken_found_and_removed_witness :
    ((deleteToken "missing" [wRowBoundary]).2 = false ∧
      (deleteToken "missing" [wRowBoundary]).1 = [wRowBoundary]) ∧
    ((deleteToken "t" [wRowBoundary]).2 = true ∧
      (validateToken "t" ⟨0, 0⟩ (deleteToken "t" [wRowBoundary]).1).2 = none) :=
  ⟨(deleteToken_found_and_removed "missing" ⟨0, 0⟩ [wRowBoundary]).1 rfl,
   (deleteToken_found_and_removed "t" ⟨0, 0⟩ [wRowBoundary]).2 rfl⟩

/-- An identity whose avatar field is present but is the empty string. -/
def cUserEmptyPhoto : User :=
  { id := "ext-9", provider := "google", email := "bob@x", name := "Bob",
    photo := some "" }

/-- C1 counterexample: create-then-validate does not return a snapshot
equal to the issued identity's fields for every valid identity.  For an
identity whose avatar URL is the empty string, `createToken` stores NULL
(the JS `user.photo || null` treats the falsy empty string as absent), so
the returned snapshot's photo is `none`, not the identity's `some ""`. -/
theorem create_validate_roundtrip_counterexample :
    (validateToken "tk" ⟨0, 0⟩
        (createToken cUserEmptyPhoto 30 "tk" ⟨0, 0⟩ []).1).2 =
      some { id := cUserEmptyPhoto.id, provider := cUserEmptyPhoto.provider,
             name := cUserEmptyPhoto.name, email := cUserEmptyPhoto.email,
             photo := none } ∧
    (validateToken "tk" ⟨0, 0⟩
        (createToken cUserEmptyPhoto 30 "tk" ⟨0, 0⟩ []).1).2 ≠
      some { id := cUserEmptyPhoto.id, provider := cUserEmptyPhoto.provider,
             name := cUserEmptyPhoto.name, email := cUserEmptyPhoto.email,
             photo := cUserEmptyPhoto.photo } := by
  constructor
  · rfl
  · decide

/-- C1 (amended): for every identity, calling `createToken` and then
immediately `validateToken` on the returned token yields a snapshot whose
id, provider, name and email equal the issued identity's fields, and
whose photo equals the identity's avatar after the code's
empty-or-absent-to-NULL normalization (`jsOrNull`); in particular the
photo is equal verbatim whenever it is not the empty string.  Requires
the freshly generated token not to collide with a stored one and a
nonnegative `rememberDays`. -/
theorem create_validate_roundtrip (user : User) (rememberDays : Int)
    (tok : String) (now : DateTime) (store : Store)
    (hfresh : ∀ r ∈ store, (r.token == tok) = false)
    (hdays : 0 ≤ rememberDays) :
    (validateToken tok now (createToken user rememberDays tok now store).1).2 =
      some { id := user.id, provider := user.provider, name := user.name,
             email := user.email, photo := jsOrNull user.photo } := by
  have hfresh2 : ∀ r ∈ (store.filter fun r =>
      !(r.userId == user.id && r.provider == user.provider)),
      (fun r2 : TokenRow => r2.token == tok) r = false :=
    fun r hr => hfresh r (List.mem_filter.mp hr).1
  have hfind : ((createToken user rememberDays tok now store).1.find?
      fun r2 => r2.token == tok) = some (newTokenRow user rememberDays tok now) := by
    show ((store.filter fun r =>
        !(r.userId == user.id && r.provider == user.provider))
      ++ [newTokenRow user rememberDays tok now]).find? _ = _
    rw [find?_append_of_forall_false _ hfresh2]
    exact List.find?_cons_of_pos _ (by simp [newTokenRow])
  have hltb : (newTokenRow user rememberDays tok now).expiresAt.ltb now = false :=
    DateTime.ltb_addDays_self now rememberDays hdays
  simp only [validateToken, hfind, hltb, Bool.false_eq_true, if_false]
  rfl

/-- A concrete identity with a nonempty avatar URL. -/
def wUserAlice : User :=
  { id := "ext-1", provider := "google", email := "alice@x", name := "Alice",
    photo := some "http://p" }

/-- C1 witness: create-then-validate on the empty store for an identity
with a nonempty avatar returns exactly the identity's denormalized
fields. -/
theorem create_validate_roundtrip_witness :
    (validateToken "tk" ⟨0, 0⟩
        (createToken wUserAlice 30 "tk" ⟨0, 0⟩ []).1).2 =
      some { id := wUserAlice.id, provider := wUserAlice.provider,
             name := wUserAlice.name, email := wUserAlice.email,
             photo := jsOrNull wUserAlice.photo } :=
  create_validate_roundtrip wUserAlice 30 "tk" ⟨0, 0⟩ []
    (fun r hr => absurd hr (List.not_mem_nil r)) (by decide)

/-- C2: at most one live token per identity.  After a second successful
`createToken` for the same identity (with a fresh token value), no stored
row carries the first token any more — the issuance's delete step removed
it — so `validateToken` on the older token returns `NotFound`. -/
theorem second_create_invalidates_first (user : User) (tok1 tok2 : String)
    (now1 now2 now3 : DateTime) (store : Store)
    (hfresh : ∀ r ∈ store, (r.token == tok1) = false)
    (hne : (tok2 == tok1) = false) :
    (∀ r ∈ (createToken user 30 tok2 now2
        (createToken user 30 tok1 now1 store).1).1,
      (r.token == tok1) = false) ∧
    (validateToken tok1 now3
        (createToken user 30 tok2 now2
          (createToken user 30 tok1 now1 store).1).1).2 = none := by
  have hall : ∀ r ∈ (createToken user 30 tok2 now2
      (createToken user 30 tok1 now1 store).1).1,
      (r.token == tok1) = false := by
    intro r hr
    simp only [createToken, applyCreate] at hr
    rcases List.mem_append.mp hr with hr1 | hr2
    · have hr1m := List.mem_filter.mp hr1
      rcases List.mem_append.mp hr1m.1 with hrF | hrRow
      · exact hfresh r (List.mem_filter.mp hrF).1
      · exfalso
        have hreq : r = newTokenRow user 30 tok1 now1 :=
          List.mem_singleton.mp hrRow
        have hcond := hr1m.2
        rw [hreq] at hcond
        simp [newTokenRow] at hcond
    · have hreq : r = newTokenRow user 30 tok2 now2 :=
        List.mem_singleton.mp hr2
      rw [hreq]
      simpa [newTokenRow] using hne
  refine ⟨hall, ?_⟩
  have hfind : ((createToken user 30 tok2 now2
      (createToken user 30 tok1 now1 store).1).1.find?
        fun r2 => r2.token == tok1) = none :=
    List.find?_eq_none.mpr fun a ha => by simp [hall a ha]
  simp [validateToken, hfind]

/-- C2 witness: issuing twice for the same identity on the empty store
leaves no row with the first token, and validating the first token gives
`NotFound`. -/
theorem second_create_invalidates_first_witness :
    (∀ r ∈ (createToken wUserAlice 30 "tok-b" ⟨1, 0⟩
        (createToken wUserAlice 30 "tok-a" ⟨0, 0⟩ []).1).1,
      (r.token == "tok-a") = false) ∧
    (validateToken "tok-a" ⟨2, 0⟩
        (createToken wUserAlice 30 "tok-b" ⟨1, 0⟩
          (createToken wUserAlice 30 "tok-a" ⟨0, 0⟩ []).1).1).2 = none :=
  second_create_invalidates_first wUserAlice "tok-a" "tok-b" ⟨0, 0⟩ ⟨1, 0⟩
    ⟨2, 0⟩ [] (fun r hr => absurd hr (List.not_mem_nil r)) (by decide)

/-- C5: every successful `validateToken` refreshes the row's `lastUsed` to
the current time (first part), and no `validateToken` call — successful or
not — changes `expiresAt` or any field other than `lastUsed` of any
surviving row: each row of the post-call store is a pre-call row with at
most its `lastUsed` replaced by `now` (second part).  Expiry is fixed at
issuance, never extended by validation. -/
theorem validateToken_touch_refresh_and_frame (tok : String) (now : DateTime)
    (store : Store) :
    (∀ r : TokenRow, store.find? (fun r2 => r2.token == tok) = some r →
      r.expiresAt.ltb now = false →
      (validateToken tok now store).2 = some (rowSnapshot r) ∧
      ∀ r2 ∈ (validateToken tok now store).1,
        r2.token = tok → r2.lastUsed = now) ∧
    (∀ r2 ∈ (validateToken tok now store).1,
      ∃ r1, r1 ∈ store ∧ stripLastUsed r2 = stripLastUsed r1 ∧
        r2.expiresAt = r1.expiresAt ∧
        (r2.lastUsed = r1.lastUsed ∨ r2.lastUsed = now)) := by
  constructor
  · intro r hfind hlive
    simp only [validateToken, hfind, hlive, Bool.false_eq_true, if_false]
    refine ⟨trivial, ?_⟩
    intro r2 hr2 htok
    obtain ⟨r1, hr1, heq⟩ := List.mem_map.mp hr2
    by_cases h : (r1.token == tok) = true
    · rw [if_pos h] at heq
      rw [← heq]
    · rw [if_neg h] at heq
      subst heq
      exact absurd (by simp [htok]) h
  · intro r2 hr2
    rcases hf : store.find? (fun r => r.token == tok) with _ | r
    · simp only [validateToken, hf] at hr2
      exact ⟨r2, hr2, rfl, rfl, Or.inl rfl⟩
    · by_cases hexp : r.expiresAt.ltb now = true
      · simp only [validateToken, hf, hexp, if_true] at hr2
        exact ⟨r2, (List.mem_filter.mp hr2).1, rfl, rfl, Or.inl rfl⟩
      · have hexp2 : r.expiresAt.ltb now = false := by
          revert hexp
          cases r.expiresAt.ltb now <;> simp
        simp only [validateToken, hf, hexp2, Bool.false_eq_true, if_false]
          at hr2
        obtain ⟨r1, hr1, heq⟩ := List.mem_map.mp hr2
        by_cases h : (r1.token == tok) = true
        · rw [if_pos h] at heq
          rw [← heq]
          exact ⟨r1, hr1, rfl, rfl, Or.inr rfl⟩
        · rw [if_neg h] at heq
          subst heq
          exact ⟨r1, hr1, rfl, rfl, Or.inl rfl⟩

/-- C5 witness: validating the boundary row while it is live refreshes its
`lastUsed` to the call instant, and the post-call store is the pre-call
row with only `lastUsed` changed. -/
theorem validateToken_touch_refresh_and_frame_witness :
    ((validateToken "t" ⟨1, 0⟩ [wRowBoundary]).2 =
        some (rowSnapshot wRowBoundary) ∧
      ∀ r2 ∈ (validateToken "t" ⟨1, 0⟩ [wRowBoundary]).1,
        r2.token = "t" → r2.lastUsed = ⟨1, 0⟩) ∧
    (∀ r2 ∈ (validateToken "t" ⟨1, 0⟩ [wRowBoundary]).1,
      ∃ r1, r1 ∈ [wRowBoundary] ∧ stripLastUsed r2 = stripLastUsed r1 ∧
        r2.expiresAt = r1.expiresAt ∧
        (r2.lastUsed = r1.lastUsed ∨ r2.lastUsed = ⟨1, 0⟩)) :=
  ⟨(validateToken_touch_refresh_and_frame "t" ⟨1, 0⟩ [wRowBoundary]).1
      wRowBoundary rfl rfl,
   (validateToken_touch_refresh_and_frame "t" ⟨1, 0⟩ [wRowBoundary]).2⟩
